import Mathlib

/-
Shallow embedding of the conversational core of the FinBot personal-finance
assistant (source: helpers.py).  The embedding covers the number parser
(`parse_number`), the profile store (`init_profile`), the conversation state
machine (`get_response`), and the reply-polishing fallback logic
(`call_hf_polish` / `maybe_polish_and_return`).

Modelling conventions:
* Python floats are idealized as rationals (ℚ); the decimal literals 0.5,
  0.3, 0.2 of the source are exact in ℚ.
* A Python exception escaping a function is modelled as the result `none`
  (for `get_response`) or as the `ParseResult.crash` constructor (for the
  `float` call inside `parse_number`).
* `st.session_state` is modelled by the `Session` structure, holding the one
  field the core touches, `temp_goal_amount`.  Reading the attribute when it
  is absent raises `AttributeError` in Streamlit, which the source does not
  catch inside the `getting_goal_time` branch; the embedding returns `none`
  there.
* The source applies `maybe_polish_and_return(core, user_input, profile)` to
  every reply uniformly before returning.  The embedding factors that out:
  `get_response` returns the core reply, and `respond_polished` composes it
  with the polisher, whose external call is modelled by an `HFOutcome`
  oracle value.
-/

set_option maxRecDepth 8000

namespace FinBot

/-! ## Number parser (`parse_number`, helpers.py lines 86-91)

The source scans with the regex `[\d,]+(?:\.\d+)?`, takes the first match,
deletes the commas and applies `float`.  `float ""` (which happens when the
match consists of commas only) raises `ValueError`. -/

/-- Result of `parse_number`: `crash` models the uncaught `ValueError` of
`float("")`, `noMatch` models the `None` return, `value v` a parsed float. -/
inductive ParseResult where
  | crash
  | noMatch
  | value (v : ℚ)

def isDigitOrComma (c : Char) : Bool := c.isDigit || c == ','

def digitsToNat (l : List Char) : Nat :=
  l.foldl (fun a c => a * 10 + (c.toNat - 48)) 0

/-- First match of the regex `[\d,]+(?:\.\d+)?` in a character list:
returns the `[\d,]+` run and the fractional digits (empty when the optional
group does not participate). -/
def reMatch : List Char → Option (List Char × List Char)
  | [] => none
  | c :: cs =>
    if isDigitOrComma c then
      let run := (c :: cs).takeWhile isDigitOrComma
      let rest := (c :: cs).dropWhile isDigitOrComma
      match rest with
      | '.' :: ds =>
        let fds := ds.takeWhile Char.isDigit
        if fds.isEmpty then some (run, []) else some (run, fds)
      | _ => some (run, [])
    else reMatch cs

/-- Python `float` applied to the comma-stripped match `ip ++ "." ++ fp`
(the dot present only when `fp` is nonempty): raises `ValueError` when the
string is empty, i.e. when both digit lists are empty. -/
def floatOfDigits (ip fp : List Char) : ParseResult :=
  if ip.isEmpty && fp.isEmpty then ParseResult.crash
  else ParseResult.value
    ((digitsToNat ip : ℚ) + (digitsToNat fp : ℚ) / (10 : ℚ) ^ fp.length)

/-- `parse_number` (helpers.py lines 86-91). -/
def parse_number (text : String) : ParseResult :=
  match reMatch text.toList with
  | none => ParseResult.noMatch
  | some (run, fds) => floatOfDigits (run.filter (fun c => c != ',')) fds

/-! ## Python number formatting

The replies interpolate numbers with the format specs `:,.0f` and `:,.2f`
(round-half-even, comma thousands separators) and with `int(...)`
(truncation toward zero). -/

def ratFloor (q : ℚ) : ℤ := q.num.fdiv (q.den : ℤ)

/-- Round to the nearest integer, ties to even (Python `round`/format
rounding). -/
def roundHalfEven (q : ℚ) : ℤ :=
  let f := ratFloor q
  let r := q - (f : ℚ)
  if r < 1/2 then f
  else if 1/2 < r then f + 1
  else if f % 2 = 0 then f else f + 1

/-- Python `int()` on a float: truncation toward zero. -/
def pyTrunc (q : ℚ) : ℤ :=
  if 0 ≤ q then ratFloor q else - ratFloor (-q)

def natDigits (n : Nat) : List Char := Nat.toDigits 10 n

def chunk3 : List Char → List (List Char)
  | [] => []
  | [a] => [[a]]
  | [a, b] => [[a, b]]
  | a :: b :: c :: rest => [a, b, c] :: chunk3 rest

def commaJoinRev : List (List Char) → List Char
  | [] => []
  | [c] => c
  | c :: cs => c ++ ',' :: commaJoinRev cs

/-- Insert comma thousands separators into a digit string. -/
def insertCommas (digits : List Char) : List Char :=
  (commaJoinRev (chunk3 digits.reverse)).reverse

/-- Python format spec `:,.0f`. -/
def fmtC0 (q : ℚ) : String :=
  let n := roundHalfEven q
  (if n < 0 then "-" else "") ++ String.mk (insertCommas (natDigits n.natAbs))

/-- Python format spec `:,.2f`. -/
def fmtC2 (q : ℚ) : String :=
  let n := roundHalfEven (q * 100)
  let a := n.natAbs
  let frac := a % 100
  (if n < 0 then "-" else "")
    ++ String.mk (insertCommas (natDigits (a / 100))) ++ "."
    ++ (if frac < 10 then "0" else "") ++ String.mk (natDigits frac)

/-- Decimal rendering of a Python `int`. -/
def intRepr (i : ℤ) : String :=
  (if i < 0 then "-" else "") ++ String.mk (natDigits i.natAbs)

/-! ## String helpers: Python `.lower()`, `in` (substring), suffix test -/

def strLower (s : String) : String := String.mk (s.toList.map Char.toLower)

/-- Python `.strip()`: drop whitespace from both ends (list-based so that
it evaluates by reduction). -/
def strTrim (s : String) : String :=
  String.mk (((s.toList.dropWhile Char.isWhitespace).reverse.dropWhile
    Char.isWhitespace).reverse)

def listIsPrefixOf : List Char → List Char → Bool
  | [], _ => true
  | _ :: _, [] => false
  | a :: as, b :: bs => a == b && listIsPrefixOf as bs

def listContainsSub (needle : List Char) : List Char → Bool
  | [] => needle.isEmpty
  | c :: rest => listIsPrefixOf needle (c :: rest) || listContainsSub needle rest

/-- Python `needle in hay` on strings. -/
def strContainsB (hay needle : String) : Bool :=
  listContainsSub needle.toList hay.toList

def strEndsWithB (s suffix : String) : Bool :=
  listIsPrefixOf suffix.toList.reverse s.toList.reverse

/-! ## Profile store and session state

`init_profile` (helpers.py lines 76-84) builds the per-conversation dict;
`Session` stands for `st.session_state`, restricted to the only attribute
the core reads or writes, `temp_goal_amount`. -/

structure Profile where
  income : ℚ
  expenses : ℚ
  risk_tolerance : String
  conversation_state : Option String

/-- `init_profile` (helpers.py lines 76-84). -/
def init_profile : Profile :=
  { income := 0, expenses := 0, risk_tolerance := "medium", conversation_state := none }

structure Session where
  temp_goal_amount : Option ℚ

/-! ## Reply texts (string literals of helpers.py, apostrophes escaped) -/

def backReminder : String := "You can also type \x27back\x27 to return to the main menu."

def resetReply : String := "I\x27ve reset the conversation. How can I help you next?"

def incomeAckReply (income : ℚ) : String :=
  "Great! Your monthly income is ₹" ++ fmtC0 income
    ++ ". Now, what are your total monthly expenses (rent, bills, food, etc.)? " ++ backReminder

def incomeRepromptReply : String :=
  "I couldn\x27t understand that number. Please provide your total monthly income. " ++ backReminder

def expensesRepromptReply : String :=
  "I couldn\x27t understand that number. Please provide your total monthly expenses. " ++ backReminder

def onTrackMsg : String := "You\x27re doing a great job with your savings! Keep it up."

def belowTargetMsg : String :=
  "You\x27re a bit below the 20% savings target. Consider trimming wants."

/-- The facts part of the budget summary (helpers.py lines 129-138),
parameterized by the figures the source interpolates. -/
def budgetFactsText (income expenses savings needs wants saves_target : ℚ) : String :=
  "Thanks! Based on your numbers:\n\n- Income: ₹" ++ fmtC0 income
    ++ "\n- Expenses: ₹" ++ fmtC0 expenses
    ++ "\n- Potential Savings: ₹" ++ fmtC0 savings
    ++ " per month\n\nSample budget (50/30/20):\n- Needs (50%): ₹" ++ fmtC0 needs
    ++ "\n- Wants (30%): ₹" ++ fmtC0 wants
    ++ "\n- Savings (20%): ₹" ++ fmtC0 saves_target ++ "\n\n"

/-- The budget summary reply (helpers.py lines 124-142): local computations
`savings`, `needs`, `wants`, `saves_target` followed by the verdict suffix. -/
def budget_core (income expenses : ℚ) : String :=
  let savings := income - expenses
  let needs := income * 0.5
  let wants := income * 0.3
  let saves_target := income * 0.2
  budgetFactsText income expenses savings needs wants saves_target
    ++ (if savings ≥ saves_target then onTrackMsg else belowTargetMsg)

def goalAmountAckReply (amount : ℚ) : String :=
  "Goal amount set to ₹" ++ fmtC0 amount
    ++ ". In how many months do you want to achieve this goal? " ++ backReminder

def goalAmountRepromptReply : String :=
  "Please enter a valid target amount for your goal. " ++ backReminder

def goalDoneReply (amount months monthly : ℚ) : String :=
  "To reach your goal of ₹" ++ fmtC0 amount ++ " in " ++ intRepr (pyTrunc months)
    ++ " months, save ₹" ++ fmtC2 monthly ++ " every month."

def goalTimeRepromptReply : String :=
  "Please enter a valid number of months. " ++ backReminder

def emergencyDoneReply (expenses fund3 fund6 : ℚ) : String :=
  "For an emergency fund based on ₹" ++ fmtC0 expenses
    ++ " monthly expenses, aim for:\n\n- 3-month fund: ₹" ++ fmtC0 fund3
    ++ "\n- 6-month fund: ₹" ++ fmtC0 fund6
    ++ "\n\nKeep this in a liquid/higher-yield savings option."

def emergencyRepromptReply : String :=
  "I didn\x27t catch that. Please tell me your essential monthly expenses. " ++ backReminder

def budgetStartReply : String :=
  "Let\x27s create a budget. What is your total monthly income after tax? " ++ backReminder

def emergencyStartReply : String :=
  "What are your essential monthly expenses (rent, food, utilities, EMIs)? " ++ backReminder

def goalStartReply : String :=
  "What is the target amount you want to save? " ++ backReminder

def taxReply : String :=
  "In India, you can save taxes using several sections:\n\n"
    ++ "1. Section 80C (up to ₹1.5 lakh): PPF, ELSS, Life Insurance, principal repayment of home loan.\n"
    ++ "2. Section 80D: Health insurance premium deduction.\n"
    ++ "3. NPS (Section 80CCD(1B)): extra deduction of ₹50,000.\n\n"
    ++ "The best option depends on your goals and risk appetite."

def investReply : String :=
  "Investment options by risk:\n\n"
    ++ "- Low risk: FDs, PPF, Debt funds.\n"
    ++ "- Medium risk: Index funds, Balanced mutual funds.\n"
    ++ "- High risk: Direct equity, mid/small-cap funds, crypto (small allocation).\n\n"
    ++ "What is your risk tolerance (low, medium, high)?"

def helloReply : String :=
  "Hello! 👋 How can I help you with your finances today? Try: \x27create a budget\x27, \x27set a goal\x27, or \x27tax\x27."

def fallbackReply : String :=
  "I’m not sure about that. Try asking me to \x27create a budget\x27, set a \x27savings goal\x27, or ask about \x27tax\x27 or \x27investments\x27."

/-! ## Conversation state machine (`get_response`, helpers.py lines 94-234)

Each branch returns the core reply together with the updated profile and
session; `none` models an uncaught Python exception. -/

/-- Python truthiness of a float: `if income:` is false exactly for 0.
Stated on the numerator so that it evaluates by projection. -/
def pyTruthy (v : ℚ) : Bool := v.num != 0

/-- Python `a < b` on floats, via the primitive comparison. -/
def pyLtB (a b : ℚ) : Bool := Rat.blt a b

/-- `getting_income_for_budget` branch (helpers.py lines 108-117).
`if income:` treats both a failed parse and a parsed 0 as falsy. -/
def incomeBranch (u : String) (p : Profile) (s : Session) :
    Option (String × Profile × Session) :=
  match parse_number u with
  | ParseResult.crash => none
  | ParseResult.noMatch => some (incomeRepromptReply, p, s)
  | ParseResult.value v =>
    if pyTruthy v then
      some (incomeAckReply v,
        { p with income := v, conversation_state := some "getting_expenses_for_budget" }, s)
    else some (incomeRepromptReply, p, s)

/-- `getting_expenses_for_budget` branch (helpers.py lines 119-146). -/
def expensesBranch (u : String) (p : Profile) (s : Session) :
    Option (String × Profile × Session) :=
  match parse_number u with
  | ParseResult.crash => none
  | ParseResult.noMatch => some (expensesRepromptReply, p, s)
  | ParseResult.value v =>
    if pyTruthy v then
      some (budget_core p.income v,
        { p with expenses := v, conversation_state := none }, s)
    else some (expensesRepromptReply, p, s)

/-- `getting_goal_amount` branch (helpers.py lines 148-157): a valid amount
is written to `st.session_state.temp_goal_amount`. -/
def goalAmountBranch (u : String) (p : Profile) (s : Session) :
    Option (String × Profile × Session) :=
  match parse_number u with
  | ParseResult.crash => none
  | ParseResult.noMatch => some (goalAmountRepromptReply, p, s)
  | ParseResult.value v =>
    if pyTruthy v then
      some (goalAmountAckReply v,
        { p with conversation_state := some "getting_goal_time" },
        { temp_goal_amount := some v })
    else some (goalAmountRepromptReply, p, s)

/-- `getting_goal_time` branch (helpers.py lines 159-173): on a valid month
count the source reads `st.session_state.temp_goal_amount` without guarding
for its absence (`AttributeError`, modelled as `none`), then deletes it
inside `try/except`. -/
def goalTimeBranch (u : String) (p : Profile) (s : Session) :
    Option (String × Profile × Session) :=
  match parse_number u with
  | ParseResult.crash => none
  | ParseResult.noMatch => some (goalTimeRepromptReply, p, s)
  | ParseResult.value v =>
    if pyTruthy v && pyLtB 0 v then
      match s.temp_goal_amount with
      | none => none
      | some amount =>
        let monthly := amount / v
        some (goalDoneReply amount v monthly,
          { p with conversation_state := none }, { temp_goal_amount := none })
    else some (goalTimeRepromptReply, p, s)

/-- `getting_emergency_expenses` branch (helpers.py lines 175-190). -/
def emergencyBranch (u : String) (p : Profile) (s : Session) :
    Option (String × Profile × Session) :=
  match parse_number u with
  | ParseResult.crash => none
  | ParseResult.noMatch => some (emergencyRepromptReply, p, s)
  | ParseResult.value v =>
    if pyTruthy v then
      some (emergencyDoneReply v (v * 3) (v * 6),
        { p with conversation_state := none }, s)
    else some (emergencyRepromptReply, p, s)

/-- Keyword intents (helpers.py lines 192-234), tested by substring
containment on the lower-cased utterance, first match wins. -/
def keywordBranch (raw_text : String) (p : Profile) (s : Session) :
    Option (String × Profile × Session) :=
  if strContainsB raw_text "budget" || strContainsB raw_text "plan" then
    some (budgetStartReply,
      { p with conversation_state := some "getting_income_for_budget" }, s)
  else if strContainsB raw_text "emergency fund" || strContainsB raw_text "emergency" then
    some (emergencyStartReply,
      { p with conversation_state := some "getting_emergency_expenses" }, s)
  else if strContainsB raw_text "goal" then
    some (goalStartReply,
      { p with conversation_state := some "getting_goal_amount" }, s)
  else if strContainsB raw_text "tax" then some (taxReply, p, s)
  else if strContainsB raw_text "invest" then some (investReply, p, s)
  else if strContainsB raw_text "hello" || strContainsB raw_text "hi" then
    some (helloReply, p, s)
  else some (fallbackReply, p, s)

/-- `get_response` (helpers.py lines 94-234): the universal `"back"` reset,
then the five-state dispatch on `conversation_state`, then keyword intents. -/
def get_response (user_input : String) (p : Profile) (s : Session) :
    Option (String × Profile × Session) :=
  let raw_text := strLower user_input
  if strTrim raw_text = "back" then
    some (resetReply, { p with conversation_state := none }, s)
  else if p.conversation_state = some "getting_income_for_budget" then
    incomeBranch user_input p s
  else if p.conversation_state = some "getting_expenses_for_budget" then
    expensesBranch user_input p s
  else if p.conversation_state = some "getting_goal_amount" then
    goalAmountBranch user_input p s
  else if p.conversation_state = some "getting_goal_time" then
    goalTimeBranch user_input p s
  else if p.conversation_state = some "getting_emergency_expenses" then
    emergencyBranch user_input p s
  else keywordBranch raw_text p s

/-- The five-state dispatcher in isolation: what `get_response` does when a
flow is active.  It never consults the keyword intents. -/
def state_dispatch (st : String) (u : String) (p : Profile) (s : Session) :
    Option (String × Profile × Session) :=
  if st = "getting_income_for_budget" then incomeBranch u p s
  else if st = "getting_expenses_for_budget" then expensesBranch u p s
  else if st = "getting_goal_amount" then goalAmountBranch u p s
  else if st = "getting_goal_time" then goalTimeBranch u p s
  else if st = "getting_emergency_expenses" then emergencyBranch u p s
  else none

/-! ## Reply polisher (`call_hf_polish` / `maybe_polish_and_return`,
helpers.py lines 15-73)

The network interaction is modelled by an `HFOutcome` oracle; the payload
parsing of lines 44-68 is embedded faithfully over a JSON-like type. -/

/-- JSON-like values a `resp.json()` call can produce. -/
inductive HFData where
  | jstr (s : String)
  | jnum (q : ℚ)
  | jbool (b : Bool)
  | jnull
  | jlist (l : List HFData)
  | jobj (fields : List (String × HFData))

def lookupField : List (String × HFData) → String → Option HFData
  | [], _ => none
  | (k, v) :: rest, key => if k = key then some v else lookupField rest key

/-- The Python test `"generated_text" in x` (line 47): defined on dicts
(key membership), strings (substring) and lists (element equality); raises
`TypeError` (modelled `none`) on other values. -/
def pyInGenText : HFData → Option Bool
  | HFData.jobj fields => some (lookupField fields "generated_text").isSome
  | HFData.jstr s => some (strContainsB s "generated_text")
  | HFData.jlist l =>
    some (l.any (fun d => match d with
      | HFData.jstr s => s == "generated_text"
      | _ => false))
  | _ => none

/-- The `else` chain of lines 49-60 for data that is not a nonempty list
passing the `in` test: dict field access, bare string, then the best-effort
`data[0].get("generated_text")` inside `try/except` (which, as analysed
per case, always ends with `out = None`). -/
def extractElse : HFData → Option HFData
  | HFData.jobj fields => lookupField fields "generated_text"
  | HFData.jstr s => some (HFData.jstr s)
  | _ => none

/-- The value bound to `out` by lines 45-60, `none` when an exception was
raised (caught by the outer `except`, line 64) or `out` stayed `None`. -/
def extractOut : HFData → Option HFData
  | HFData.jlist (x :: xs) =>
    match pyInGenText x with
    | none => none
    | some true =>
      match x with
      | HFData.jobj fields => lookupField fields "generated_text"
      | _ => none
    | some false => extractElse (HFData.jlist (x :: xs))
  | d => extractElse d

/-- Lines 45-68 as a whole: `if out: return out.strip()`, every other path
(including non-string `out`, whose `.strip()` raises) returns `None`. -/
def extractGenText (data : HFData) : Option String :=
  match extractOut data with
  | some (HFData.jstr s) => if s ≠ "" then some (strTrim s) else none
  | _ => none

/-- Outcome of the one `requests.post` attempt in `call_hf_polish`. -/
inductive HFOutcome where
  | noToken
  | netError
  | httpResp (status : Nat) (body : Option HFData)

/-- `call_hf_polish` (helpers.py lines 15-68) over the outcome oracle:
no token → no call; raised request → `None`; non-200 status → `None`;
unparsable JSON body → `None`; else the payload extraction. -/
def call_hf_polish : HFOutcome → Option String
  | HFOutcome.noToken => none
  | HFOutcome.netError => none
  | HFOutcome.httpResp status body =>
    if status ≠ 200 then none
    else
      match body with
      | none => none
      | some data => extractGenText data

/-- `maybe_polish_and_return` (helpers.py lines 70-73): `polished if
polished else core_reply` (so `None` and the empty string both fall back). -/
def maybe_polish_and_return (core_reply : String) (o : HFOutcome) : String :=
  match call_hf_polish o with
  | some polished => if polished ≠ "" then polished else core_reply
  | none => core_reply

/-- The tolerated failure modes of the polisher named by the spec: missing
credentials, network-level error or timeout, non-success status, JSON
decoding failure, or a payload with no recognizable generated-text field. -/
def hfFailure : HFOutcome → Prop
  | HFOutcome.noToken => True
  | HFOutcome.netError => True
  | HFOutcome.httpResp status body =>
    status ≠ 200 ∨ body = none ∨ ∀ d, body = some d → extractGenText d = none

/-- Full entry point with the polishing pass applied to the core reply, the
way every return of the source routes through `maybe_polish_and_return`. -/
def respond_polished (u : String) (p : Profile) (s : Session) (o : HFOutcome) :
    Option (String × Profile × Session) :=
  (get_response u p s).map (fun r => (maybe_polish_and_return r.1 o, r.2))

/-! ## Boolean equality helpers

The derived `DecidableEq` on ℚ-containing structures does not reduce well
at `decide`-time (the `Rat` structure carries proof fields), so concrete
equalities are settled through projection-based boolean comparisons,
related to propositional equality by the `..._iff` lemmas proved below. -/

def ratBEq (a b : ℚ) : Bool := a.num == b.num && a.den == b.den

def parseResultBEq : ParseResult → ParseResult → Bool
  | ParseResult.crash, ParseResult.crash => true
  | ParseResult.noMatch, ParseResult.noMatch => true
  | ParseResult.value v, ParseResult.value w => ratBEq v w
  | _, _ => false

def optRatBEq : Option ℚ → Option ℚ → Bool
  | none, none => true
  | some a, some b => ratBEq a b
  | _, _ => false

def profileBEq (p q : Profile) : Bool :=
  ratBEq p.income q.income && ratBEq p.expenses q.expenses
    && p.risk_tolerance == q.risk_tolerance
    && p.conversation_state == q.conversation_state

def sessionBEq (s t : Session) : Bool :=
  optRatBEq s.temp_goal_amount t.temp_goal_amount

def resultBEq : Option (String × Profile × Session) → Option (String × Profile × Session) → Bool
  | none, none => true
  | some (r1, p1, s1), some (r2, p2, s2) =>
    r1 == r2 && profileBEq p1 p2 && sessionBEq s1 s2
  | _, _ => false

/-- Shorthand: a fresh profile whose conversation state is `st`. -/
def pState (st : String) : Profile :=
  { init_profile with conversation_state := some st }

/-! ## Helper lemmas -/

theorem ratBEq_iff (a b : ℚ) : ratBEq a b = true ↔ a = b := by
  constructor
  · intro h
    simp only [ratBEq, Bool.and_eq_true, beq_iff_eq] at h
    exact Rat.ext h.1 h.2
  · intro h
    subst h
    simp [ratBEq]

theorem parseResultBEq_iff (a b : ParseResult) : parseResultBEq a b = true ↔ a = b := by
  cases a <;> cases b <;> simp [parseResultBEq, ratBEq_iff]

theorem optRatBEq_iff (a b : Option ℚ) : optRatBEq a b = true ↔ a = b := by
  cases a <;> cases b <;> simp [optRatBEq, ratBEq_iff]

theorem profileBEq_iff (p q : Profile) : profileBEq p q = true ↔ p = q := by
  cases p
  cases q
  simp [profileBEq, ratBEq_iff, Profile.mk.injEq, and_assoc]

theorem sessionBEq_iff (s t : Session) : sessionBEq s t = true ↔ s = t := by
  cases s
  cases t
  simp [sessionBEq, optRatBEq_iff, Session.mk.injEq]

theorem resultBEq_iff (x y : Option (String × Profile × Session)) :
    resultBEq x y = true ↔ x = y := by
  cases x with
  | none => cases y with
    | none => simp [resultBEq]
    | some b =>
      obtain ⟨r2, p2, s2⟩ := b
      simp [resultBEq]
  | some a =>
    obtain ⟨r1, p1, s1⟩ := a
    cases y with
    | none => simp [resultBEq]
    | some b =>
      obtain ⟨r2, p2, s2⟩ := b
      simp [resultBEq, profileBEq_iff, sessionBEq_iff, and_assoc]

theorem pyTruthy_iff (v : ℚ) : pyTruthy v = true ↔ v ≠ 0 := by
  simp [pyTruthy, Rat.num_eq_zero]

theorem strToList_append (s t : String) : (s ++ t).toList = s.toList ++ t.toList := by
  cases s
  cases t
  rfl

theorem listIsPrefixOf_refl_append (a c : List Char) : listIsPrefixOf a (a ++ c) = true := by
  induction a with
  | nil => rfl
  | cons x xs ih => simp [listIsPrefixOf, ih]

theorem listIsPrefixOf_append_of_le (a b c : List Char) (h : a.length ≤ b.length) :
    listIsPrefixOf a (b ++ c) = listIsPrefixOf a b := by
  induction a generalizing b with
  | nil => simp [listIsPrefixOf]
  | cons x xs ih =>
    cases b with
    | nil => simp at h
    | cons y ys =>
      simp only [List.cons_append, listIsPrefixOf, List.append_eq]
      rw [ih ys (by simpa using h)]

theorem strEndsWithB_append (a b : String) : strEndsWithB (a ++ b) b = true := by
  unfold strEndsWithB
  rw [strToList_append, List.reverse_append]
  exact listIsPrefixOf_refl_append _ _

theorem strEndsWithB_onTrack_of_below (a : String) :
    strEndsWithB (a ++ belowTargetMsg) onTrackMsg = false := by
  unfold strEndsWithB
  rw [strToList_append, List.reverse_append]
  rw [listIsPrefixOf_append_of_le _ _ _ (by decide)]
  decide

example : parse_number "12,500.50" = ParseResult.value (12500.50 : ℚ) := by
  rw [← parseResultBEq_iff]
  with_unfolding_all decide
example : parse_number "," = ParseResult.crash := by
  rw [← parseResultBEq_iff]
  with_unfolding_all decide
example : parse_number "budget" = ParseResult.noMatch := by
  rw [← parseResultBEq_iff]
  with_unfolding_all decide
example : parse_number "hello, world" = ParseResult.crash := by
  rw [← parseResultBEq_iff]
  with_unfolding_all decide
example : fmtC0 120000 = "120,000" := by with_unfolding_all decide
example : fmtC2 200 = "200.00" := by with_unfolding_all decide
example : strContainsB "i need a budget plan" "budget" = true := by decide
example : strEndsWithB "abcd" "cd" = true := by decide

/-! ## Branch evaluation lemmas -/

theorem incomeBranch_value (u : String) (p : Profile) (s : Session) (i : ℚ)
    (h : parse_number u = ParseResult.value i) (hi : pyTruthy i = true) :
    incomeBranch u p s = some (incomeAckReply i,
      { p with income := i, conversation_state := some "getting_expenses_for_budget" }, s) := by
  simp [incomeBranch, h, hi]

theorem incomeBranch_nomatch (u : String) (p : Profile) (s : Session)
    (h : parse_number u = ParseResult.noMatch) :
    incomeBranch u p s = some (incomeRepromptReply, p, s) := by
  simp [incomeBranch, h]

theorem incomeBranch_zero (u : String) (p : Profile) (s : Session)
    (h : parse_number u = ParseResult.value 0) :
    incomeBranch u p s = some (incomeRepromptReply, p, s) := by
  simp [incomeBranch, h, pyTruthy]

theorem expensesBranch_value (u : String) (p : Profile) (s : Session) (e : ℚ)
    (h : parse_number u = ParseResult.value e) (he : pyTruthy e = true) :
    expensesBranch u p s = some (budget_core p.income e,
      { p with expenses := e, conversation_state := none }, s) := by
  simp [expensesBranch, h, he]

theorem expensesBranch_nomatch (u : String) (p : Profile) (s : Session)
    (h : parse_number u = ParseResult.noMatch) :
    expensesBranch u p s = some (expensesRepromptReply, p, s) := by
  simp [expensesBranch, h]

theorem goalAmountBranch_nomatch (u : String) (p : Profile) (s : Session)
    (h : parse_number u = ParseResult.noMatch) :
    goalAmountBranch u p s = some (goalAmountRepromptReply, p, s) := by
  simp [goalAmountBranch, h]

theorem goalTimeBranch_nomatch (u : String) (p : Profile) (s : Session)
    (h : parse_number u = ParseResult.noMatch) :
    goalTimeBranch u p s = some (goalTimeRepromptReply, p, s) := by
  simp [goalTimeBranch, h]

theorem emergencyBranch_nomatch (u : String) (p : Profile) (s : Session)
    (h : parse_number u = ParseResult.noMatch) :
    emergencyBranch u p s = some (emergencyRepromptReply, p, s) := by
  simp [emergencyBranch, h]

theorem state_dispatch_income (u : String) (p : Profile) (s : Session) :
    state_dispatch "getting_income_for_budget" u p s = incomeBranch u p s := by
  simp [state_dispatch]

theorem state_dispatch_expenses (u : String) (p : Profile) (s : Session) :
    state_dispatch "getting_expenses_for_budget" u p s = expensesBranch u p s := by
  simp [state_dispatch]

/-- Mid-flow, `get_response` coincides with the five-state dispatcher: the
keyword-intent section is never consulted. -/
theorem get_response_flow (u : String) (p : Profile) (s : Session) (st : String)
    (hu : strTrim (strLower u) ≠ "back") (hp : p.conversation_state = some st)
    (hst : st = "getting_income_for_budget" ∨ st = "getting_expenses_for_budget"
      ∨ st = "getting_goal_amount" ∨ st = "getting_goal_time"
      ∨ st = "getting_emergency_expenses") :
    get_response u p s = state_dispatch st u p s := by
  rcases hst with h | h | h | h | h <;> subst h <;>
    unfold get_response state_dispatch <;> rw [if_neg hu, hp] <;> simp

/-! ## Claims -/

/-- C1: the spec asserts `get_response` is total (every input, however
malformed, yields a reply string and never raises).  The code violates
this: from a fresh profile, the utterance "budget" reachably moves the
conversation into `getting_income_for_budget`, and there the utterance ","
makes `parse_number` call `float("")`, raising an uncaught `ValueError`
(modelled as result `none`). -/
theorem c1_crash_on_comma_reachable :
    get_response "budget" init_profile ⟨none⟩
      = some (budgetStartReply, pState "getting_income_for_budget", ⟨none⟩)
    ∧ get_response "," (pState "getting_income_for_budget") ⟨none⟩ = none := by
  constructor
  · exact (resultBEq_iff _ _).mp (by with_unfolding_all decide)
  · exact (resultBEq_iff _ _).mp (by with_unfolding_all decide)

/-- C2 counterexample: sending "back" while in `getting_goal_time` with a
pending goal amount of 500 clears the conversation state and returns the
reset reply, but the transient scratch field `temp_goal_amount` is NOT
cleared — it still holds 500 — refuting the claim that "back" clears any
transient scratch field including a pending goal amount. -/
theorem c2_scratch_not_cleared :
    get_response "back" (pState "getting_goal_time") ⟨some 500⟩
      = some (resetReply, init_profile, ⟨some 500⟩)
    ∧ (Session.mk (some 500)).temp_goal_amount ≠ none := by
  constructor
  · exact (resultBEq_iff _ _).mp (by with_unfolding_all decide)
  · simp

/-- C2 (amended): for every profile and session, any utterance whose
case-folded, trimmed form is "back" resets `conversation_state` to idle
and returns the reset-acknowledgement reply, independently of the active
flow — but the session (including a pending goal amount) is passed through
unchanged. -/
theorem c2_back_resets (u : String) (p : Profile) (s : Session)
    (h : strTrim (strLower u) = "back") :
    get_response u p s = some (resetReply, { p with conversation_state := none }, s) := by
  unfold get_response
  rw [if_pos h]

/-- C2 witness: "  BACK " from mid goal flow resets the state (and leaves
the pending amount in the session). -/
theorem c2_back_resets_witness :
    get_response "  BACK " (pState "getting_goal_time") ⟨some 500⟩
      = some (resetReply,
        { pState "getting_goal_time" with conversation_state := none }, ⟨some 500⟩) :=
  c2_back_resets "  BACK " (pState "getting_goal_time") ⟨some 500⟩ (by decide)

/-- C3: the claim "no digits → none, no exception" fails: the input ","
contains no digit, the regex `[\d,]+` still matches the bare comma, and
`float("")` raises (modelled `ParseResult.crash`).  The well-formed part of
the claim holds: "12,500.50" parses exactly to 12500.50, also when
surrounded by words and a currency symbol. -/
theorem c3_parse_number_behavior :
    parse_number "," = ParseResult.crash
    ∧ parse_number "12,500.50" = ParseResult.value (12500.50 : ℚ)
    ∧ parse_number "Save ₹12,500.50 now" = ParseResult.value (12500.50 : ℚ) := by
  refine ⟨?_, ?_, ?_⟩ <;> rw [← parseResultBEq_iff] <;> with_unfolding_all decide

/-- C4: the spec demands that reaching `getting_goal_time` with no pending
goal amount be handled defensively (reprompt).  The code instead reads
`st.session_state.temp_goal_amount` unguarded, raising `AttributeError`
(modelled as result `none`) on the valid month answer "5". -/
theorem c4_goal_time_no_pending_crash :
    get_response "5" (pState "getting_goal_time") ⟨none⟩ = none := by
  exact (resultBEq_iff _ _).mp (by with_unfolding_all decide)

/-- C5: in the budget flow, after an income utterance parsing to `i` (≠ 0,
the code's validity test) and an expenses utterance parsing to `e` (≠ 0),
the state is cleared and the summary's figures are needs = 0.5·i,
wants = 0.3·i, savings target = 0.2·i, savings = i − e, with the on-track
verdict exactly when savings ≥ savings target. -/
theorem c5_budget_flow (u1 u2 : String) (i e : ℚ) (p : Profile) (s : Session)
    (hp : p.conversation_state = some "getting_income_for_budget")
    (hb1 : strTrim (strLower u1) ≠ "back") (hb2 : strTrim (strLower u2) ≠ "back")
    (h1 : parse_number u1 = ParseResult.value i) (hi : i ≠ 0)
    (h2 : parse_number u2 = ParseResult.value e) (he : e ≠ 0) :
    ∃ p1, get_response u1 p s = some (incomeAckReply i, p1, s)
      ∧ p1.income = i
      ∧ p1.conversation_state = some "getting_expenses_for_budget"
      ∧ get_response u2 p1 s
          = some (budget_core i e, { p1 with expenses := e, conversation_state := none }, s)
      ∧ budget_core i e
          = budgetFactsText i e (i - e) (i * 0.5) (i * 0.3) (i * 0.2)
            ++ (if i - e ≥ i * 0.2 then onTrackMsg else belowTargetMsg)
      ∧ (strEndsWithB (budget_core i e) onTrackMsg = true ↔ i - e ≥ i * 0.2) := by
  have hti : pyTruthy i = true := (pyTruthy_iff i).mpr hi
  have hte : pyTruthy e = true := (pyTruthy_iff e).mpr he
  refine ⟨{ p with income := i, conversation_state := some "getting_expenses_for_budget" },
    ?_, rfl, rfl, ?_, rfl, ?_⟩
  · rw [get_response_flow u1 p s "getting_income_for_budget" hb1 hp (Or.inl rfl),
      state_dispatch_income]
    exact incomeBranch_value u1 p s i h1 hti
  · rw [get_response_flow u2 _ s "getting_expenses_for_budget" hb2 rfl
      (Or.inr (Or.inl rfl)), state_dispatch_expenses]
    exact expensesBranch_value u2 _ s e h2 hte
  · have hcore : budget_core i e
        = budgetFactsText i e (i - e) (i * 0.5) (i * 0.3) (i * 0.2)
          ++ (if i - e ≥ i * 0.2 then onTrackMsg else belowTargetMsg) := rfl
    by_cases hv : i - e ≥ i * 0.2
    · rw [hcore, if_pos hv, strEndsWithB_append]
      simp [hv]
    · rw [hcore, if_neg hv, strEndsWithB_onTrack_of_below]
      simp [hv]

/-- C5 witness: income 60000 then expenses 45000 gives the full summary
with figures 30000 / 18000 / 12000, savings 15000, and the on-track
verdict. -/
theorem c5_budget_flow_witness :
    ∃ p1, get_response "60000" (pState "getting_income_for_budget") ⟨none⟩
        = some (incomeAckReply 60000, p1, ⟨none⟩)
      ∧ p1.income = 60000
      ∧ p1.conversation_state = some "getting_expenses_for_budget"
      ∧ get_response "45000" p1 ⟨none⟩
          = some (budget_core 60000 45000,
            { p1 with expenses := 45000, conversation_state := none }, ⟨none⟩)
      ∧ budget_core 60000 45000
          = budgetFactsText 60000 45000 ((60000 : ℚ) - 45000) (60000 * 0.5) (60000 * 0.3)
              (60000 * 0.2)
            ++ (if (60000 : ℚ) - 45000 ≥ 60000 * 0.2 then onTrackMsg else belowTargetMsg)
      ∧ (strEndsWithB (budget_core 60000 45000) onTrackMsg = true
          ↔ (60000 : ℚ) - 45000 ≥ 60000 * 0.2) :=
  c5_budget_flow "60000" "45000" 60000 45000 (pState "getting_income_for_budget") ⟨none⟩
    rfl (by decide) (by decide)
    ((parseResultBEq_iff _ _).mp (by with_unfolding_all decide)) (by norm_num)
    ((parseResultBEq_iff _ _).mp (by with_unfolding_all decide)) (by norm_num)

/-- C6: with any of the five flow states active and an utterance other than
"back", `get_response` equals the pure five-state dispatcher (which never
consults the keyword intents); in particular the utterance "budget"
mid-flow yields a reprompt with the profile (state included) unchanged,
and not the budget-flow start reply. -/
theorem c6_flow_isolation (st : String)
    (hst : st = "getting_income_for_budget" ∨ st = "getting_expenses_for_budget"
      ∨ st = "getting_goal_amount" ∨ st = "getting_goal_time"
      ∨ st = "getting_emergency_expenses")
    (u : String) (hu : strTrim (strLower u) ≠ "back")
    (p : Profile) (s : Session) (hp : p.conversation_state = some st) :
    get_response u p s = state_dispatch st u p s
    ∧ ∃ r, get_response "budget" p s = some (r, p, s) ∧ r ≠ budgetStartReply := by
  have hbu : strTrim (strLower "budget") ≠ "back" := by decide
  have hnm : parse_number "budget" = ParseResult.noMatch :=
    (parseResultBEq_iff _ _).mp (by with_unfolding_all decide)
  refine ⟨get_response_flow u p s st hu hp hst, ?_⟩
  rw [get_response_flow "budget" p s st hbu hp hst]
  rcases hst with h | h | h | h | h <;> subst h
  · exact ⟨incomeRepromptReply,
      by rw [state_dispatch_income]; exact incomeBranch_nomatch _ p s hnm, by decide⟩
  · exact ⟨expensesRepromptReply,
      by rw [state_dispatch_expenses]; exact expensesBranch_nomatch _ p s hnm, by decide⟩
  · exact ⟨goalAmountRepromptReply,
      by simp only [state_dispatch]; norm_num; exact goalAmountBranch_nomatch _ p s hnm,
      by decide⟩
  · exact ⟨goalTimeRepromptReply,
      by simp only [state_dispatch]; norm_num; exact goalTimeBranch_nomatch _ p s hnm,
      by decide⟩
  · exact ⟨emergencyRepromptReply,
      by simp only [state_dispatch]; norm_num; exact emergencyBranch_nomatch _ p s hnm,
      by decide⟩

/-- C6 witness: in `getting_goal_time`, the utterance "what now" is handled
by the state dispatcher, and "budget" reprompts leaving the profile
unchanged instead of starting a new flow. -/
theorem c6_flow_isolation_witness :
    get_response "what now" (pState "getting_goal_time") ⟨none⟩
      = state_dispatch "getting_goal_time" "what now" (pState "getting_goal_time") ⟨none⟩
    ∧ ∃ r, get_response "budget" (pState "getting_goal_time") ⟨none⟩
        = some (r, pState "getting_goal_time", ⟨none⟩) ∧ r ≠ budgetStartReply :=
  c6_flow_isolation "getting_goal_time"
    (Or.inr (Or.inr (Or.inr (Or.inl rfl)))) "what now" (by decide)
    (pState "getting_goal_time") ⟨none⟩ rfl

/-- C7: whenever the polishing call fails in one of the tolerated ways —
missing credentials, a raised request (network error or timeout), a
non-success status, an unparsable JSON body, or a payload with no
recognizable generated-text field — the returned text is exactly the core
reply. -/
theorem c7_polish_fallback (core : String) (o : HFOutcome) (h : hfFailure o) :
    maybe_polish_and_return core o = core := by
  cases o with
  | noToken => rfl
  | netError => rfl
  | httpResp status body =>
    simp only [maybe_polish_and_return, call_hf_polish]
    rcases h with hstat | hbody | hextract
    · simp [hstat]
    · subst hbody
      by_cases hs : status ≠ 200
      · simp [hs]
      · simp [hs]
    · by_cases hs : status ≠ 200
      · simp [hs]
      · cases body with
        | none => simp [hs]
        | some d => simp [hs, hextract d rfl]

/-- C7 witness: with no credentials configured the caller gets the core
reply byte-for-byte. -/
theorem c7_polish_fallback_witness :
    maybe_polish_and_return "Core reply." HFOutcome.noToken = "Core reply." :=
  c7_polish_fallback "Core reply." HFOutcome.noToken trivial

/-- C8 counterexample: the utterance "0" parses to the number 0 (so a
number ≥ 0 was extracted), yet the income step does not store it and does
not advance — `if income:` treats 0 as falsy and reprompts in the same
state, refuting "any n ≥ 0, including 0". -/
theorem c8_zero_income_counterexample :
    parse_number "0" = ParseResult.value 0
    ∧ get_response "0" (pState "getting_income_for_budget") ⟨none⟩
        = some (incomeRepromptReply, pState "getting_income_for_budget", ⟨none⟩) := by
  constructor
  · rw [← parseResultBEq_iff]
    with_unfolding_all decide
  · exact (resultBEq_iff _ _).mp (by with_unfolding_all decide)

/-- C8 (amended): in `getting_income_for_budget`, a parsed number n ≠ 0 is
stored as income and the state advances to `getting_expenses_for_budget`;
the flow reprompts in place both when no number can be extracted and when
the extracted number is 0 (which the code treats as falsy). -/
theorem c8_income_step (u : String) (p : Profile) (s : Session) (i : ℚ)
    (hp : p.conversation_state = some "getting_income_for_budget")
    (hb : strTrim (strLower u) ≠ "back") :
    (parse_number u = ParseResult.value i → i ≠ 0 →
      get_response u p s = some (incomeAckReply i,
        { p with income := i, conversation_state := some "getting_expenses_for_budget" }, s))
    ∧ (parse_number u = ParseResult.noMatch →
      get_response u p s = some (incomeRepromptReply, p, s))
    ∧ (parse_number u = ParseResult.value 0 →
      get_response u p s = some (incomeRepromptReply, p, s)) := by
  rw [get_response_flow u p s _ hb hp (Or.inl rfl), state_dispatch_income]
  exact ⟨fun h hi => incomeBranch_value u p s i h ((pyTruthy_iff i).mpr hi),
    fun h => incomeBranch_nomatch u p s h,
    fun h => incomeBranch_zero u p s h⟩

/-- C8 witness: "500" stores income 500 and advances to the expenses
question. -/
theorem c8_income_step_witness :
    get_response "500" (pState "getting_income_for_budget") ⟨none⟩
      = some (incomeAckReply 500,
        { pState "getting_income_for_budget" with
            income := 500,
            conversation_state := some "getting_expenses_for_budget" }, ⟨none⟩) :=
  (c8_income_step "500" (pState "getting_income_for_budget") ⟨none⟩ 500 rfl (by decide)).1
    ((parseResultBEq_iff _ _).mp (by with_unfolding_all decide)) (by norm_num)

/-- C9 counterexample: the emergency-fund completion reply (which clears
the state) contains no "back" reminder at all, refuting the claim for
flow-completion replies. -/
theorem c9_completion_counterexample :
    get_response "20000" (pState "getting_emergency_expenses") ⟨none⟩
      = some (emergencyDoneReply 20000 60000 120000, init_profile, ⟨none⟩)
    ∧ strContainsB (emergencyDoneReply 20000 60000 120000) "back" = false := by
  constructor
  · exact (resultBEq_iff _ _).mp (by with_unfolding_all decide)
  · with_unfolding_all decide

/-- C9 (amended): in each of the five flow states, when no number can be
extracted from the utterance the reprompt reply ends with the full "back"
reminder sentence; the flow-completion replies do not carry it (see the
counterexample). -/
theorem c9_reprompts_remind (st : String)
    (hst : st = "getting_income_for_budget" ∨ st = "getting_expenses_for_budget"
      ∨ st = "getting_goal_amount" ∨ st = "getting_goal_time"
      ∨ st = "getting_emergency_expenses")
    (u : String) (hu : strTrim (strLower u) ≠ "back")
    (hparse : parse_number u = ParseResult.noMatch)
    (p : Profile) (s : Session) (hp : p.conversation_state = some st) :
    ∃ r, get_response u p s = some (r, p, s) ∧ strEndsWithB r backReminder = true := by
  rw [get_response_flow u p s st hu hp hst]
  rcases hst with h | h | h | h | h <;> subst h
  · exact ⟨incomeRepromptReply,
      by rw [state_dispatch_income]; exact incomeBranch_nomatch u p s hparse,
      strEndsWithB_append _ _⟩
  · exact ⟨expensesRepromptReply,
      by rw [state_dispatch_expenses]; exact expensesBranch_nomatch u p s hparse,
      strEndsWithB_append _ _⟩
  · exact ⟨goalAmountRepromptReply,
      by simp only [state_dispatch]; norm_num; exact goalAmountBranch_nomatch u p s hparse,
      strEndsWithB_append _ _⟩
  · exact ⟨goalTimeRepromptReply,
      by simp only [state_dispatch]; norm_num; exact goalTimeBranch_nomatch u p s hparse,
      strEndsWithB_append _ _⟩
  · exact ⟨emergencyRepromptReply,
      by simp only [state_dispatch]; norm_num; exact emergencyBranch_nomatch u p s hparse,
      strEndsWithB_append _ _⟩

/-- C9 witness: an unparseable utterance in the budget-expenses state
yields a reprompt ending with the back reminder. -/
theorem c9_reprompts_remind_witness :
    ∃ r, get_response "no idea" (pState "getting_expenses_for_budget") ⟨none⟩
        = some (r, pState "getting_expenses_for_budget", ⟨none⟩)
      ∧ strEndsWithB r backReminder = true :=
  c9_reprompts_remind "getting_expenses_for_budget" (Or.inr (Or.inl rfl)) "no idea"
    (by decide) ((parseResultBEq_iff _ _).mp (by with_unfolding_all decide))
    (pState "getting_expenses_for_budget") ⟨none⟩ rfl

/-- C10 counterexample: two conversations with their own Profile instances
share `st.session_state.temp_goal_amount`.  Conversation A stores goal
amount 1000; conversation B then stores 2000 into the same session slot;
A's subsequent goal-time answer "10" is computed from B's 2000 (reply
"₹2,000 … ₹200.00"), different from the reply A would get from its own
pending amount 1000 — so one conversation's pending goal amount does
influence the other's reply. -/
theorem c10_goal_leak_counterexample :
    get_response "1000" (pState "getting_goal_amount") ⟨none⟩
      = some (goalAmountAckReply 1000, pState "getting_goal_time", ⟨some 1000⟩)
    ∧ get_response "2000" (pState "getting_goal_amount") ⟨some 1000⟩
      = some (goalAmountAckReply 2000, pState "getting_goal_time", ⟨some 2000⟩)
    ∧ (get_response "10" (pState "getting_goal_time") ⟨some 2000⟩).map (fun r => r.1)
      = some (goalDoneReply 2000 10 200)
    ∧ (get_response "10" (pState "getting_goal_time") ⟨some 1000⟩).map (fun r => r.1)
      = some (goalDoneReply 1000 10 100)
    ∧ goalDoneReply 2000 10 200 ≠ goalDoneReply 1000 10 100 := by
  refine ⟨?_, ?_, ?_, ?_, ?_⟩
  · exact (resultBEq_iff _ _).mp (by with_unfolding_all decide)
  · exact (resultBEq_iff _ _).mp (by with_unfolding_all decide)
  · exact eq_of_beq (by with_unfolding_all decide)
  · exact eq_of_beq (by with_unfolding_all decide)
  · intro hEq
    have hb2 : (goalDoneReply 2000 10 200 == goalDoneReply 1000 10 100) = false := by
      with_unfolding_all decide
    rw [hEq] at hb2
    simp at hb2

/-- C10 (amended): the shared session is the only channel between
conversations: whenever the active state is not `getting_goal_time` (the
only reader of the shared pending goal amount) the reply and the updated
profile are independent of the session contents. -/
theorem c10_session_isolation (u : String) (p : Profile) (s1 s2 : Session)
    (hp : p.conversation_state ≠ some "getting_goal_time") :
    (get_response u p s1).map (fun r => (r.1, r.2.1))
      = (get_response u p s2).map (fun r => (r.1, r.2.1)) := by
  simp only [get_response]
  by_cases hb : strTrim (strLower u) = "back"
  · rw [if_pos hb, if_pos hb]
    rfl
  · rw [if_neg hb, if_neg hb]
    by_cases h1 : p.conversation_state = some "getting_income_for_budget"
    · rw [if_pos h1, if_pos h1]
      unfold incomeBranch
      cases parse_number u with
      | crash => rfl
      | noMatch => rfl
      | value v => cases hv : pyTruthy v <;> simp [hv]
    · rw [if_neg h1, if_neg h1]
      by_cases h2 : p.conversation_state = some "getting_expenses_for_budget"
      · rw [if_pos h2, if_pos h2]
        unfold expensesBranch
        cases parse_number u with
        | crash => rfl
        | noMatch => rfl
        | value v => cases hv : pyTruthy v <;> simp [hv]
      · rw [if_neg h2, if_neg h2]
        by_cases h3 : p.conversation_state = some "getting_goal_amount"
        · rw [if_pos h3, if_pos h3]
          unfold goalAmountBranch
          cases parse_number u with
          | crash => rfl
          | noMatch => rfl
          | value v => cases hv : pyTruthy v <;> simp [hv]
        · rw [if_neg h3, if_neg h3, if_neg hp, if_neg hp]
          by_cases h5 : p.conversation_state = some "getting_emergency_expenses"
          · rw [if_pos h5, if_pos h5]
            unfold emergencyBranch
            cases parse_number u with
            | crash => rfl
            | noMatch => rfl
            | value v => cases hv : pyTruthy v <;> simp [hv]
          · rw [if_neg h5, if_neg h5]
            unfold keywordBranch
            split_ifs <;> rfl

/-- C10 witness: outside the goal flow, an idle greeting computes the same
reply and profile whatever the session holds. -/
theorem c10_session_isolation_witness :
    (get_response "hello" init_profile ⟨some 1⟩).map (fun r => (r.1, r.2.1))
      = (get_response "hello" init_profile ⟨none⟩).map (fun r => (r.1, r.2.1)) :=
  c10_session_isolation "hello" init_profile ⟨some 1⟩ ⟨none⟩ (by simp [init_profile])

end FinBot
